import Mathlib

/-!
Verification development for the jina-mcp server (`src/api/mcp/server.ts` and the
flights handler in `src/unnamed/part_001`).  The three MCP tool handlers are
shallowly embedded as pure Lean functions.  The host `fetch` primitive is
modelled as an oracle supplied to each handler: the handler builds an HTTP
request, hands it to the oracle, and translates the oracle's answer (a response
or a thrown network fault) into the uniform tool-result envelope.  JavaScript
truthiness tests in the source (`if (apiKey) ...`) are translated exactly:
an optional string is truthy iff present and nonempty, an optional boolean is
truthy iff present and `true`, a number is truthy iff nonzero, while
`typeof x === 'number'` / `typeof x !== 'undefined'` tests are presence tests.
-/

/-- HTTP method of an outbound request (the source only uses GET and POST). -/
inductive HttpMethod where
  | get
  | post
deriving DecidableEq, Repr

/-- An outbound HTTP request as assembled by a tool handler: method, full URL,
header list in insertion order, and an optional form-encoded body. -/
structure HttpRequest where
  method : HttpMethod
  url : String
  headers : List (String × String)
  body : Option String
deriving DecidableEq, Repr

/-- One item of the MCP result content array; the source always produces
items of the form `\x7b type: "text", text \x7d`. -/
structure ContentItem where
  type : String
  text : String
deriving DecidableEq, Repr

/-- The uniform tool result envelope: a content list plus the error flag.
The source omits `isError` on success, which reads as `false`. -/
structure ToolResult where
  content : List ContentItem
  isError : Bool
deriving DecidableEq, Repr

/-- First text payload of a result envelope (the source always emits exactly
one content item). -/
def firstText (t : ToolResult) : String :=
  match t.content with
  | c :: _ => c.text
  | [] => ""

/-- An upstream HTTP response as observed through the host `fetch` API:
status, status text and the text body returned by `response.text()`. -/
structure HttpResponse where
  status : Nat
  statusText : String
  body : String
deriving DecidableEq, Repr

/-- Outcome of a host `fetch` call: either a response was obtained, or the
promise rejected with a network-level fault carrying `error.message`. -/
inductive HttpOutcome where
  | success (resp : HttpResponse)
  | networkError (msg : String)
deriving DecidableEq, Repr

/-- Models `response.ok` of the WHATWG fetch API: status in the range 200-299. -/
def respOk (resp : HttpResponse) : Bool :=
  decide (200 ≤ resp.status ∧ resp.status ≤ 299)

/-- Models JavaScript `String(b)` on a boolean. -/
def boolStr (b : Bool) : String :=
  if b then "true" else "false"

/-- Truthiness of an optional string parameter: present and nonempty. -/
def strTruthy : Option String → Bool
  | some s => !(s == "")
  | none => false

/-- Truthiness of an optional boolean parameter: present and true. -/
def boolTruthy : Option Bool → Bool
  | some b => b
  | none => false

/-- Models a JS `if (field) map[k] = mk(field)` assignment on an optional
string field: one entry when the field is truthy, none otherwise. -/
def condStr (k : String) (mk : String → String) : Option String → List (String × String)
  | some s => if s == "" then [] else [(k, mk s)]
  | none => []

/-- Models a JS `if (field) map[k] = v` assignment on an optional boolean. -/
def condBool (k v : String) : Option Bool → List (String × String)
  | some b => if b then [(k, v)] else []
  | none => []

/-- Models a JS `if (typeof field === 'number') map[k] = String(field)`
assignment: presence alone emits the entry, even for zero. -/
def presentNum (k : String) : Option Int → List (String × String)
  | some n => [(k, toString n)]
  | none => []

/-- Models a JS `if (field !== undefined) map[k] = String(field)` assignment
on an optional boolean: presence alone emits the entry, even for false. -/
def presentBool (k : String) : Option Bool → List (String × String)
  | some b => [(k, boolStr b)]
  | none => []

/-- Models a JS `if (field) map[k] = String(field)` assignment on an optional
number: zero is falsy and emits nothing. -/
def condNum (k : String) : Option Int → List (String × String)
  | some n => if n == 0 then [] else [(k, toString n)]
  | none => []

/-- Models a JS `if (arr?.length) arr.forEach(v => params.append(k, v))`
loop: one entry per array element, in array order. -/
def arrEntries (k : String) : Option (List String) → List (String × String)
  | some l => if l.isEmpty then [] else l.map (fun v => (k, v))
  | none => []

/-- Restriction of a header or query entry list to one key. -/
def qFor (l : List (String × String)) (k : String) : List (String × String) :=
  l.filter (fun e => e.1 == k)

/-- Lowercase hexadecimal digit (used by the JSON string escaper). -/
def hexDigitLower (n : Nat) : Char :=
  if n < 10 then Char.ofNat (48 + n) else Char.ofNat (87 + n)

/-- Uppercase hexadecimal digit (used by the form-urlencoded percent escaper). -/
def hexDigitUpper (n : Nat) : Char :=
  if n < 10 then Char.ofNat (48 + n) else Char.ofNat (55 + n)

/-- UTF-8 byte sequence of a character, as a list of byte values. -/
def utf8Bytes (c : Char) : List Nat :=
  let n := c.toNat
  if n < 128 then [n]
  else if n < 2048 then [192 + n / 64, 128 + n % 64]
  else if n < 65536 then [224 + n / 4096, 128 + (n / 64) % 64, 128 + n % 64]
  else [240 + n / 262144, 128 + (n / 4096) % 64, 128 + (n / 64) % 64, 128 + n % 64]

/-- Models the `application/x-www-form-urlencoded` serialization of one byte
as done by `URLSearchParams.toString()`: alphanumerics and `*-._` pass
through, space becomes `+`, every other byte becomes `%XX`. -/
def formEncodeByte (n : Nat) : String :=
  if n == 32 then "+"
  else if (48 ≤ n && n ≤ 57) || (65 ≤ n && n ≤ 90) || (97 ≤ n && n ≤ 122)
      || n == 42 || n == 45 || n == 46 || n == 95 then
    String.singleton (Char.ofNat n)
  else
    "%" ++ String.singleton (hexDigitUpper (n / 16)) ++ String.singleton (hexDigitUpper (n % 16))

/-- Models `URLSearchParams` percent-encoding of one string. -/
def formEncode (s : String) : String :=
  String.join (s.data.map (fun c => String.join ((utf8Bytes c).map formEncodeByte)))

/-- Models `URLSearchParams.toString()`: entries rendered `k=v` with both
sides percent-encoded, joined by `&`. -/
def queryToString (l : List (String × String)) : String :=
  String.intercalate "&" (l.map (fun e => formEncode e.1 ++ "=" ++ formEncode e.2))

/-- Models `URLSearchParams.set(k, v)`: the first entry with the key is
replaced in place, later duplicates are dropped, and a missing key appends. -/
def setParam : List (String × String) → String → String → List (String × String)
  | [], k, v => [(k, v)]
  | p :: rest, k, v =>
    if p.1 == k then (k, v) :: rest.filter (fun q => !(q.1 == k))
    else p :: setParam rest k v

/-- Substring search on character lists: true iff the pattern occurs
contiguously. -/
def containsAux (pat : List Char) : List Char → Bool
  | [] => pat.isPrefixOf []
  | c :: rest => pat.isPrefixOf (c :: rest) || containsAux pat rest

/-- Substring test on strings. -/
def containsSub (s pat : String) : Bool :=
  containsAux pat.data s.data

/-! The fetch_url_content tool (`src/api/mcp/server.ts`, lines 5-101). -/

/-- Output format enum of the fetch tool (`X-Respond-With` values). -/
inductive OutputFormat where
  | markdown
  | html
  | text
  | screenshot
deriving DecidableEq, Repr

/-- String value of an `OutputFormat`, as in the zod enum. -/
def outputFormatStr : OutputFormat → String
  | .markdown => "markdown"
  | .html => "html"
  | .text => "text"
  | .screenshot => "screenshot"

/-- Parameter record of the fetch_url_content tool (zod schema at
`src/api/mcp/server.ts` lines 8-22). -/
structure FetchRequest where
  url : String
  apiKey : Option String
  generateImageAlt : Option Bool
  cookies : Option String
  outputFormat : Option OutputFormat
  proxyUrl : Option String
  cacheTolerance : Option Int
  noCache : Option Bool
  targetSelector : Option String
  waitForSelector : Option String
  timeout : Option Int
  jsonOutput : Option Bool
  usePostForUrl : Option Bool
deriving DecidableEq, Repr

/-- Header map assembled by the fetch handler (source lines 53-67), in
assignment order; all keys are distinct so the object behaves as this list. -/
def fetchHeaders (r : FetchRequest) : List (String × String) :=
  condStr "Authorization" (fun s => "Bearer " ++ s) r.apiKey
  ++ condBool "X-With-Generated-Alt" "true" r.generateImageAlt
  ++ condStr "X-Set-Cookie" (fun s => s) r.cookies
  ++ condStr "X-Respond-With" (fun s => s) (r.outputFormat.map outputFormatStr)
  ++ condStr "X-Proxy-Url" (fun s => s) r.proxyUrl
  ++ presentNum "X-Cache-Tolerance" r.cacheTolerance
  ++ condBool "X-No-Cache" "true" r.noCache
  ++ condStr "X-Target-Selector" (fun s => s) r.targetSelector
  ++ condStr "X-Wait-For-Selector" (fun s => s) r.waitForSelector
  ++ presentNum "X-Timeout" r.timeout
  ++ condBool "Accept" "application/json" r.jsonOutput

/-- Fixed base endpoint of the Jina reader (source line 70). -/
def jinaBaseUrl : String := "https://r.jina.ai/"

/-- Request built by the fetch handler (source lines 69-81): POST with a
form-encoded `url` body when `usePostForUrl` is truthy, otherwise GET with
the raw target URL path-concatenated onto the base endpoint. -/
def buildFetchRequest (r : FetchRequest) : HttpRequest :=
  if boolTruthy r.usePostForUrl then
    { method := .post
      url := jinaBaseUrl
      headers := fetchHeaders r ++ [("Content-Type", "application/x-www-form-urlencoded")]
      body := some (queryToString [("url", r.url)]) }
  else
    { method := .get
      url := jinaBaseUrl ++ r.url
      headers := fetchHeaders r
      body := none }

/-- Response translation of the fetch handler (source lines 83-99). -/
def fetchTranslate (o : HttpOutcome) : ToolResult :=
  match o with
  | .networkError msg =>
    { content := [⟨"text", "Network error fetching URL: " ++ msg⟩], isError := true }
  | .success resp =>
    if respOk resp then
      { content := [⟨"text", resp.body⟩], isError := false }
    else
      { content := [⟨"text", "Error fetching URL: " ++ toString resp.status ++ " "
          ++ resp.statusText ++ ". " ++ resp.body⟩], isError := true }

/-- The fetch_url_content handler: builds the request, consults the fetch
oracle once, translates the outcome.  Returns the issued request with the
result envelope. -/
def fetchHandler (r : FetchRequest) (oracle : HttpRequest → HttpOutcome) :
    HttpRequest × ToolResult :=
  let req := buildFetchRequest r
  (req, fetchTranslate (oracle req))

/-! The search tool (`src/api/mcp/server.ts`, lines 103-198). -/

/-- Result-type enum of the search tool. -/
inductive SearchType where
  | web
  | images
  | news
deriving DecidableEq, Repr

/-- String value of a `SearchType`. -/
def searchTypeStr : SearchType → String
  | .web => "web"
  | .images => "images"
  | .news => "news"

/-- Provider enum of the search tool. -/
inductive SearchProvider where
  | google
  | bing
deriving DecidableEq, Repr

/-- String value of a `SearchProvider`. -/
def searchProviderStr : SearchProvider → String
  | .google => "google"
  | .bing => "bing"

/-- Output format enum of the search tool. -/
inductive SearchOutputFormat where
  | json
  | text
deriving DecidableEq, Repr

/-- Parameter record of the search tool (zod schema at source lines 106-127).
`type` and `fallback` carry zod defaults (`web`, `true`) and so are always
present after parsing. -/
structure SearchRequest where
  q : String
  apiKey : String
  type : SearchType
  provider : Option SearchProvider
  count : Option Int
  num : Option Int
  gl : Option String
  hl : Option String
  location : Option String
  page : Option Int
  fallback : Bool
  nfpr : Option Bool
  ext : Option (List String)
  filetype : Option (List String)
  intitle : Option (List String)
  site : Option (List String)
  loc : Option (List String)
  outputFormat : Option SearchOutputFormat
  noCache : Option Bool
  cacheTolerance : Option Int
deriving DecidableEq, Repr

/-- Header map assembled by the search handler (source lines 151-155). -/
def searchHeaders (r : SearchRequest) : List (String × String) :=
  condStr "Authorization" (fun s => "Bearer " ++ s) (some r.apiKey)
  ++ (if r.outputFormat = some SearchOutputFormat.json
      then [("Accept", "application/json")] else [])
  ++ condBool "X-No-Cache" "true" r.noCache
  ++ presentNum "X-Cache-Tolerance" r.cacheTolerance

/-- Query entry list appended by the search handler (source lines 157-173),
in append order. -/
def searchQueryEntries (r : SearchRequest) : List (String × String) :=
  [("q", r.q)]
  ++ condStr "type" (fun s => s) (some (searchTypeStr r.type))
  ++ condStr "provider" (fun s => s) (r.provider.map searchProviderStr)
  ++ condNum "count" r.count
  ++ condNum "num" r.num
  ++ condStr "gl" (fun s => s) r.gl
  ++ condStr "hl" (fun s => s) r.hl
  ++ condStr "location" (fun s => s) r.location
  ++ condNum "page" r.page
  ++ [("fallback", boolStr r.fallback)]
  ++ presentBool "nfpr" r.nfpr
  ++ arrEntries "ext" r.ext
  ++ arrEntries "filetype" r.filetype
  ++ arrEntries "intitle" r.intitle
  ++ arrEntries "site" r.site
  ++ arrEntries "loc" r.loc

/-- Request built by the search handler (source line 175): GET against the
fixed search endpoint with the serialized query string. -/
def buildSearchRequest (r : SearchRequest) : HttpRequest :=
  { method := .get
    url := "https://s.jina.ai/search?" ++ queryToString (searchQueryEntries r)
    headers := searchHeaders r
    body := none }

/-- Response translation of the search handler (source lines 179-196). -/
def searchTranslate (o : HttpOutcome) : ToolResult :=
  match o with
  | .networkError msg =>
    { content := [⟨"text", "Network error during search: " ++ msg⟩], isError := true }
  | .success resp =>
    if respOk resp then
      { content := [⟨"text", resp.body⟩], isError := false }
    else
      { content := [⟨"text", "Error performing search: " ++ toString resp.status ++ " "
          ++ resp.statusText ++ ". " ++ resp.body⟩], isError := true }

/-- The search handler: one request, one oracle consultation, translation. -/
def searchHandler (r : SearchRequest) (oracle : HttpRequest → HttpOutcome) :
    HttpRequest × ToolResult :=
  let req := buildSearchRequest r
  (req, searchTranslate (oracle req))

/-! The searchGoogleFlights tool (`src/unnamed/part_001`, lines 200-340). -/

/-- Trip-type enum (`flight_type`: "1" round trip, "2" one way, "3" multi-city). -/
inductive FlightType where
  | roundTrip
  | oneWay
  | multiCity
deriving DecidableEq, Repr

/-- String value of a `FlightType`. -/
def flightTypeStr : FlightType → String
  | .roundTrip => "1"
  | .oneWay => "2"
  | .multiCity => "3"

/-- Travel-class enum ("1" economy .. "4" first). -/
inductive TravelClass where
  | economy
  | premiumEconomy
  | business
  | first
deriving DecidableEq, Repr

/-- String value of a `TravelClass`. -/
def travelClassStr : TravelClass → String
  | .economy => "1"
  | .premiumEconomy => "2"
  | .business => "3"
  | .first => "4"

/-- Sort-order enum ("1" top flights .. "6" emissions). -/
inductive SortBy where
  | topFlights
  | price
  | departureTime
  | arrivalTime
  | duration
  | emissions
deriving DecidableEq, Repr

/-- String value of a `SortBy`. -/
def sortByStr : SortBy → String
  | .topFlights => "1"
  | .price => "2"
  | .departureTime => "3"
  | .arrivalTime => "4"
  | .duration => "5"
  | .emissions => "6"

/-- Stops enum ("0" any .. "3" two stops or fewer). -/
inductive Stops where
  | any
  | nonstop
  | oneOrFewer
  | twoOrFewer
deriving DecidableEq, Repr

/-- String value of a `Stops`. -/
def stopsStr : Stops → String
  | .any => "0"
  | .nonstop => "1"
  | .oneOrFewer => "2"
  | .twoOrFewer => "3"

/-- Emissions enum (only value "1", less emissions). -/
inductive Emissions where
  | less
deriving DecidableEq, Repr

/-- String value of an `Emissions`. -/
def emissionsStr : Emissions → String
  | .less => "1"

/-- Parameter record of searchGoogleFlights (`googleFlightsRawShape`,
source lines 201-243). -/
structure FlightParams where
  api_key : String
  departure_id : Option String
  arrival_id : Option String
  gl : Option String
  hl : Option String
  currency : Option String
  flight_type : Option FlightType
  outbound_date : Option String
  return_date : Option String
  travel_class : Option TravelClass
  multi_city_json : Option String
  show_hidden : Option Bool
  deep_search : Option Bool
  adults : Option Int
  children : Option Int
  infants_in_seat : Option Int
  infants_on_lap : Option Int
  sort_by : Option SortBy
  stops : Option Stops
  exclude_airlines : Option String
  include_airlines : Option String
  bags : Option Int
  max_price : Option Int
  outbound_times : Option String
  return_times : Option String
  emissions : Option Emissions
  layover_duration : Option String
  exclude_conns : Option String
  max_duration : Option Int
  departure_token : Option String
  booking_token : Option String
  no_cache : Option Bool
  async_search : Option Bool
  zero_trace : Option Bool
deriving DecidableEq, Repr

/-- One zod validation issue: field path plus rule message. -/
structure RuleIssue where
  path : List String
  message : String
deriving DecidableEq, Repr

/-- First refinement (source lines 247-249): fires when both airline lists
are truthy (`data.exclude_airlines && data.include_airlines`). -/
def ruleExclFires (p : FlightParams) : Bool :=
  strTruthy p.exclude_airlines && strTruthy p.include_airlines

/-- Second refinement (source lines 250-252): both tokens truthy. -/
def ruleTokenFires (p : FlightParams) : Bool :=
  strTruthy p.departure_token && strTruthy p.booking_token

/-- Third refinement (source lines 253-255): both cache booleans truthy. -/
def ruleCacheFires (p : FlightParams) : Bool :=
  boolTruthy p.no_cache && boolTruthy p.async_search

/-- Fourth refinement (source lines 256-263): round trip without return date. -/
def ruleRoundFires (p : FlightParams) : Bool :=
  decide (p.flight_type = some FlightType.roundTrip) && p.return_date.isNone

/-- Fifth refinement (source lines 264-272): multi-city without leg list. -/
def ruleMultiFires (p : FlightParams) : Bool :=
  decide (p.flight_type = some FlightType.multiCity) && p.multi_city_json.isNone

/-- Issue reported by the first refinement. -/
def exclAirlinesIssue : RuleIssue :=
  ⟨["exclude_airlines"], "exclude_airlines and include_airlines cannot be used together."⟩

/-- Issue reported by the second refinement. -/
def tokenIssue : RuleIssue :=
  ⟨["departure_token"], "departure_token and booking_token cannot be used together."⟩

/-- Issue reported by the third refinement. -/
def cacheIssue : RuleIssue :=
  ⟨["no_cache"], "no_cache and async_search cannot be used together."⟩

/-- Issue reported by the fourth refinement. -/
def returnDateIssue : RuleIssue :=
  ⟨["return_date"], "return_date is required when flight_type is '1' (Round trip)."⟩

/-- Issue reported by the fifth refinement. -/
def multiCityIssue : RuleIssue :=
  ⟨["multi_city_json"], "multi_city_json is required when flight_type is '3' (Multi-city)."⟩

/-- Issue list produced by `googleFlightsFullSchema.parse` on a well-shaped
record: zod runs every chained refinement (a failed refinement marks the parse
dirty, not aborted) and aggregates the issues in chain order. -/
def flightsIssues (p : FlightParams) : List RuleIssue :=
  (if ruleExclFires p then [exclAirlinesIssue] else [])
  ++ (if ruleTokenFires p then [tokenIssue] else [])
  ++ (if ruleCacheFires p then [cacheIssue] else [])
  ++ (if ruleRoundFires p then [returnDateIssue] else [])
  ++ (if ruleMultiFires p then [multiCityIssue] else [])

/-- Validation error text (source line 284): every issue rendered as
`path.join('.') + ": " + message`, joined by `, `. -/
def formatIssues (l : List RuleIssue) : String :=
  String.intercalate ", " (l.map (fun e => String.intercalate "." e.path ++ ": " ++ e.message))

/-- Date pattern of the zod schema: `^\d\x7b4\x7d-\d\x7b2\x7d-\d\x7b2\x7d$`. -/
def dateFormatOk (s : String) : Bool :=
  match s.data with
  | [y1, y2, y3, y4, h1, m1, m2, h2, d1, d2] =>
    y1.isDigit && y2.isDigit && y3.isDigit && y4.isDigit && (h1 == '-')
      && m1.isDigit && m2.isDigit && (h2 == '-') && d1.isDigit && d2.isDigit
  | _ => false

/-- Date check lifted to optional fields. -/
def optDateOk : Option String → Bool
  | some s => dateFormatOk s
  | none => true

/-- Nonnegativity check lifted to optional numeric fields (zod `min(0)`). -/
def optNonneg : Option Int → Bool
  | some n => decide (0 ≤ n)
  | none => true

/-- Shape constraints of the raw zod schema beyond what the Lean types carry:
date regexes and `min(0)` bounds.  The MCP adapter checks the raw shape before
the handler runs, so the handler only ever sees well-shaped records. -/
def wellShaped (p : FlightParams) : Bool :=
  optDateOk p.outbound_date && optDateOk p.return_date
  && optNonneg p.adults && optNonneg p.children
  && optNonneg p.infants_in_seat && optNonneg p.infants_on_lap
  && optNonneg p.bags && optNonneg p.max_price && optNonneg p.max_duration

/-- Collapses an association list with optional values to the present entries,
keeping order: the skeleton of the serialization loop at source lines 303-312
(`typeof value !== 'undefined'` guards each entry). -/
def optPairs : List (String × Option String) → List (String × String)
  | [] => []
  | (k, some v) :: rest => (k, v) :: optPairs rest
  | (_, none) :: rest => optPairs rest

/-- The `restParams` fields (everything except `api_key`, `flight_type` and
`async_search`) in object-key order, each with its serialized value: booleans
and numbers stringified, strings passed through (source lines 289, 303-312). -/
def restSpec (p : FlightParams) : List (String × Option String) :=
  [("departure_id", p.departure_id),
   ("arrival_id", p.arrival_id),
   ("gl", p.gl),
   ("hl", p.hl),
   ("currency", p.currency),
   ("outbound_date", p.outbound_date),
   ("return_date", p.return_date),
   ("travel_class", p.travel_class.map travelClassStr),
   ("multi_city_json", p.multi_city_json),
   ("show_hidden", p.show_hidden.map boolStr),
   ("deep_search", p.deep_search.map boolStr),
   ("adults", p.adults.map toString),
   ("children", p.children.map toString),
   ("infants_in_seat", p.infants_in_seat.map toString),
   ("infants_on_lap", p.infants_on_lap.map toString),
   ("sort_by", p.sort_by.map sortByStr),
   ("stops", p.stops.map stopsStr),
   ("exclude_airlines", p.exclude_airlines),
   ("include_airlines", p.include_airlines),
   ("bags", p.bags.map toString),
   ("max_price", p.max_price.map toString),
   ("outbound_times", p.outbound_times),
   ("return_times", p.return_times),
   ("emissions", p.emissions.map emissionsStr),
   ("layover_duration", p.layover_duration),
   ("exclude_conns", p.exclude_conns),
   ("max_duration", p.max_duration.map toString),
   ("departure_token", p.departure_token),
   ("booking_token", p.booking_token),
   ("no_cache", p.no_cache.map boolStr),
   ("zero_trace", p.zero_trace.map boolStr)]

/-- Present rest-field entries in loop order. -/
def restEntries (p : FlightParams) : List (String × String) :=
  optPairs (restSpec p)

/-- Query parameter list built by the flights handler (source lines 291-312):
starts from `engine` and `api_key`, conditionally sets `type` (renamed from
`flight_type`) and `async` (renamed from `async_search`), then sets every
present rest field under its original name. -/
def flightsQuery (p : FlightParams) : List (String × String) :=
  let q0 := [("engine", "google_flights"), ("api_key", p.api_key)]
  let q1 := match p.flight_type with
    | some t => setParam q0 "type" (flightTypeStr t)
    | none => q0
  let q2 := match p.async_search with
    | some b => setParam q1 "async" (boolStr b)
    | none => q1
  (restEntries p).foldl (fun q e => setParam q e.1 e.2) q2

/-- Full SerpApi URL (source line 314). -/
def flightsUrl (p : FlightParams) : String :=
  "https://serpapi.com/search.json?" ++ queryToString (flightsQuery p)

/-- JSON value as parsed by the host `JSON.parse` (numbers restricted to
integers, which is all this layer ever inspects). -/
inductive JsonVal where
  | null
  | bool (b : Bool)
  | num (n : Int)
  | str (s : String)
  | arr (items : List JsonVal)
  | obj (fields : List (String × JsonVal))

/-- Escape of one character inside a JSON string literal, as done by
`JSON.stringify`. -/
def jsonEscapeChar (c : Char) : String :=
  if c == '"' then "\\\""
  else if c == '\\' then "\\\\"
  else if c == '\n' then "\\n"
  else if c == '\t' then "\\t"
  else if c == '\r' then "\\r"
  else if c.toNat == 8 then "\\b"
  else if c.toNat == 12 then "\\f"
  else if c.toNat < 32 then
    "\\u00" ++ String.singleton (hexDigitLower (c.toNat / 16))
      ++ String.singleton (hexDigitLower (c.toNat % 16))
  else String.singleton c

/-- Escape of a whole JSON string body. -/
def jsonEscape (s : String) : String :=
  String.join (s.data.map jsonEscapeChar)

/-- Indentation of `n` spaces. -/
def spaces (n : Nat) : String :=
  String.mk (List.replicate n ' ')

mutual

/-- Models `JSON.stringify(v, null, 2)` at a given indentation level. -/
def jsonPretty (ind : Nat) : JsonVal → String
  | .null => "null"
  | .bool b => boolStr b
  | .num n => toString n
  | .str s => "\"" ++ jsonEscape s ++ "\""
  | .arr [] => "[]"
  | .arr (x :: xs) =>
    "[\n" ++ jsonPrettyItems (ind + 2) (x :: xs) ++ "\n" ++ spaces ind ++ "]"
  | .obj [] => "\x7b\x7d"
  | .obj (f :: fs) =>
    "\x7b\n" ++ jsonPrettyFields (ind + 2) (f :: fs) ++ "\n" ++ spaces ind ++ "\x7d"

/-- Array items, one per line, comma-separated. -/
def jsonPrettyItems (ind : Nat) : List JsonVal → String
  | [] => ""
  | [x] => spaces ind ++ jsonPretty ind x
  | x :: y :: xs =>
    spaces ind ++ jsonPretty ind x ++ ",\n" ++ jsonPrettyItems ind (y :: xs)

/-- Object fields, one per line, comma-separated. -/
def jsonPrettyFields (ind : Nat) : List (String × JsonVal) → String
  | [] => ""
  | [(k, v)] => spaces ind ++ "\"" ++ jsonEscape k ++ "\": " ++ jsonPretty ind v
  | (k, v) :: f :: fs =>
    spaces ind ++ "\"" ++ jsonEscape k ++ "\": " ++ jsonPretty ind v ++ ",\n"
      ++ jsonPrettyFields ind (f :: fs)

end

/-- Upstream response as observed by the flights handler.  `jsonOutcome`
models the host `response.json()` call on the body: either the parsed value
or the thrown exception's message (thrown when the 2xx body is not valid
JSON). -/
structure FlightResponse where
  status : Nat
  statusText : String
  body : String
  jsonOutcome : Except String JsonVal

/-- Outcome of the SerpApi fetch: a response, or a network-level fault. -/
inductive FlightOutcome where
  | success (resp : FlightResponse)
  | networkError (msg : String)

/-- Models `response.ok` for the flights response. -/
def flightRespOk (resp : FlightResponse) : Bool :=
  decide (200 ≤ resp.status ∧ resp.status ≤ 299)

/-- Response translation of the flights handler (source lines 316-339).  The
try block covers both `fetch` and `response.json()`, so a JSON parse failure
lands in the same catch as a transport fault. -/
def flightsTranslate (o : FlightOutcome) : ToolResult :=
  match o with
  | .networkError msg =>
    { content := [⟨"text", "Failed to fetch flight data: " ++ msg⟩], isError := true }
  | .success resp =>
    if flightRespOk resp then
      match resp.jsonOutcome with
      | .ok data =>
        { content := [⟨"text", jsonPretty 0 data⟩], isError := false }
      | .error emsg =>
        { content := [⟨"text", "Failed to fetch flight data: " ++ emsg⟩], isError := true }
    else
      { content := [⟨"text", "Error fetching flight data from SerpApi: "
          ++ toString resp.status ++ " " ++ resp.statusText ++ ". Details: "
          ++ resp.body⟩], isError := true }

/-- The searchGoogleFlights handler (source lines 277-340): validate, and on
failure return the aggregated issue text without touching the network;
otherwise build the SerpApi URL, consult the oracle once, translate.  The
first component records the URL of the issued request, `none` when no
request was issued. -/
def flightsHandler (p : FlightParams) (oracle : String → FlightOutcome) :
    Option String × ToolResult :=
  if (flightsIssues p).isEmpty then
    let url := flightsUrl p
    (some url, flightsTranslate (oracle url))
  else
    (none, { content := [⟨"text", "Input validation error: "
      ++ formatIssues (flightsIssues p)⟩], isError := true })

/-! Sample inputs and oracles used by witnesses and counterexamples. -/

/-- Fetch request with a present-but-false boolean flag and all other
optional fields absent. -/
def rAltFalse : FetchRequest :=
  ⟨"https://example.com", none, some false, none, none, none, none, none, none, none,
   none, none, none⟩

/-- Plain fetch request with every optional field absent. -/
def rPlain : FetchRequest :=
  ⟨"https://example.com", none, none, none, none, none, none, none, none, none,
   none, none, none⟩

/-- Fetch request asking for POST mode. -/
def rPost : FetchRequest :=
  ⟨"https://example.com/page#frag", none, none, none, none, none, none, none, none, none,
   none, none, some true⟩

/-- Fetch oracle that always reports a network fault. -/
def fetchOracleNet : HttpRequest → HttpOutcome :=
  fun _ => .networkError "ECONNRESET"

/-- Fetch oracle that always answers 404 with body "not found". -/
def fetchOracle404 : HttpRequest → HttpOutcome :=
  fun _ => .success ⟨404, "Not Found", "not found"⟩

/-- Search request with both `count` and `num` present but zero. -/
def sZero : SearchRequest :=
  ⟨"lean", "KEY", .web, none, some 0, some 0, none, none, none, none, true, none,
   none, none, none, none, none, none, none, none⟩

/-- Minimal search request. -/
def sMin : SearchRequest :=
  ⟨"lean", "KEY", .web, none, none, none, none, none, none, none, true, none,
   none, none, none, none, none, none, none, none⟩

/-- Flight params where both airline lists are present but the exclude list
is the empty string: spec-level presence without JS truthiness. -/
def pExclEmpty : FlightParams :=
  ⟨"k", none, none, none, none, none, none, none, none, none, none, none, none,
   none, none, none, none, none, none, some "", some "DL", none, none, none, none,
   none, none, none, none, none, none, none, none, none⟩

/-- Flight params violating the cache rule (both booleans true). -/
def pCacheConflict : FlightParams :=
  ⟨"k", none, none, none, none, none, none, none, none, none, none, none, none,
   none, none, none, none, none, none, none, none, none, none, none, none,
   none, none, none, none, none, none, some true, some true, none⟩

/-- Minimal valid flight params. -/
def pMin : FlightParams :=
  ⟨"k", none, none, none, none, none, none, none, none, none, none, none, none,
   none, none, none, none, none, none, none, none, none, none, none, none,
   none, none, none, none, none, none, none, none, none⟩

/-- Flights oracle that always reports a network fault. -/
def flightOracleNet : String → FlightOutcome :=
  fun _ => .networkError "ECONNRESET"

/-- Flights oracle answering 2xx with a body that is not valid JSON:
`response.json()` throws. -/
def flightOracleBadJson : String → FlightOutcome :=
  fun _ => .success ⟨200, "OK", "not json",
    Except.error "Unexpected token o in JSON at position 1"⟩

/-! Helper lemmas. -/

theorem qFor_append (a b : List (String × String)) (k : String) :
    qFor (a ++ b) k = qFor a k ++ qFor b k := by
  simp [qFor]

theorem qFor_single (k v kq : String) :
    qFor [(k, v)] kq = if k == kq then [(k, v)] else [] := by
  cases hk : (k == kq) <;> simp [qFor, hk]

theorem qFor_condStr (k kq : String) (mk : String → String) (o : Option String) :
    qFor (condStr k mk o) kq = if k == kq then condStr k mk o else [] := by
  cases o with
  | none => simp [condStr, qFor]
  | some s =>
    cases hs : (s == "") <;> cases hk : (k == kq) <;> simp [condStr, qFor, hs, hk]

theorem qFor_condBool (k v kq : String) (o : Option Bool) :
    qFor (condBool k v o) kq = if k == kq then condBool k v o else [] := by
  cases o with
  | none => simp [condBool, qFor]
  | some b => cases b <;> cases hk : (k == kq) <;> simp [condBool, qFor, hk]

theorem qFor_presentNum (k kq : String) (o : Option Int) :
    qFor (presentNum k o) kq = if k == kq then presentNum k o else [] := by
  cases o with
  | none => simp [presentNum, qFor]
  | some n => cases hk : (k == kq) <;> simp [presentNum, qFor, hk]

theorem qFor_presentBool (k kq : String) (o : Option Bool) :
    qFor (presentBool k o) kq = if k == kq then presentBool k o else [] := by
  cases o with
  | none => simp [presentBool, qFor]
  | some b => cases hk : (k == kq) <;> simp [presentBool, qFor, hk]

theorem qFor_condNum (k kq : String) (o : Option Int) :
    qFor (condNum k o) kq = if k == kq then condNum k o else [] := by
  cases o with
  | none => simp [condNum, qFor]
  | some n =>
    cases hn : (n == 0) <;> cases hk : (k == kq) <;> simp [condNum, qFor, hn, hk]

theorem filter_key_map (l : List String) (k kq : String) :
    (l.map (fun v => (k, v))).filter (fun e => e.1 == kq)
      = if k == kq then l.map (fun v => (k, v)) else [] := by
  induction l with
  | nil => simp
  | cons a t ih => cases hk : (k == kq) <;> simp [hk] at ih ⊢ <;> exact ih

theorem qFor_arrEntries (k kq : String) (o : Option (List String)) :
    qFor (arrEntries k o) kq = if k == kq then arrEntries k o else [] := by
  cases o with
  | none => simp [arrEntries, qFor]
  | some l =>
    cases hl : l.isEmpty <;> cases hk : (k == kq) <;>
      simp [arrEntries, qFor, hl, hk, filter_key_map]

theorem qFor_optPairs (l : List (String × Option String)) (kq : String) :
    qFor (optPairs l) kq = optPairs (l.filter (fun e => e.1 == kq)) := by
  induction l with
  | nil => simp [optPairs, qFor]
  | cons e rest ih =>
    obtain ⟨k, o⟩ := e
    cases o with
    | none =>
      cases hk : (k == kq) <;> simp [optPairs, qFor, hk] at ih ⊢ <;> exact ih
    | some v =>
      cases hk : (k == kq) <;> simp [optPairs, qFor, hk] at ih ⊢ <;> exact ih

theorem optPairs_key_mem (l : List (String × Option String)) (e : String × String)
    (h : e ∈ optPairs l) : e.1 ∈ l.map Prod.fst := by
  induction l with
  | nil => simp [optPairs] at h
  | cons hd rest ih =>
    obtain ⟨k, o⟩ := hd
    cases o with
    | none => simp only [optPairs] at h; simpa using Or.inr (ih h)
    | some v =>
      simp only [optPairs, List.mem_cons] at h
      rcases h with h | h
      · simp [h]
      · simpa using Or.inr (ih h)


theorem optPairs_keys_sublist (l : List (String × Option String)) :
    ((optPairs l).map Prod.fst).Sublist (l.map Prod.fst) := by
  induction l with
  | nil => simp [optPairs]
  | cons hd rest ih =>
    obtain ⟨k, o⟩ := hd
    cases o with
    | none =>
      simp only [optPairs, List.map_cons]
      exact ih.cons k
    | some v =>
      simp only [optPairs, List.map_cons]
      exact ih.cons₂ k

theorem setParam_fresh (l : List (String × String)) (k v : String)
    (h : ∀ e ∈ l, ¬(e.1 = k)) : setParam l k v = l ++ [(k, v)] := by
  induction l with
  | nil => rfl
  | cons p rest ih =>
    have hp : (p.1 == k) = false := by
      simpa using h p (List.mem_cons_self p rest)
    simp only [setParam, hp, Bool.false_eq_true, if_false, List.cons_append,
      List.cons.injEq, true_and]
    exact ih (fun e he => h e (List.mem_cons_of_mem p he))

theorem foldSet_fresh (items : List (String × String)) :
    ∀ q : List (String × String),
      (∀ e ∈ items, ∀ pr ∈ q, ¬(pr.1 = e.1)) → (items.map Prod.fst).Nodup →
      items.foldl (fun acc e => setParam acc e.1 e.2) q = q ++ items := by
  induction items with
  | nil => intro q _ _; simp
  | cons e rest ih =>
    intro q h hd
    rw [List.map_cons, List.nodup_cons] at hd
    have h1 : setParam q e.1 e.2 = q ++ [e] := by
      have h2 := setParam_fresh q e.1 e.2
        (fun pr hpr => h e (List.mem_cons_self e rest) pr hpr)
      simpa using h2
    rw [List.foldl_cons, h1, ih (q ++ [e]) ?_ hd.2]
    · simp
    · intro e2 he2 pr hpr
      rcases List.mem_append.mp hpr with hq | hsing
      · exact h e2 (List.mem_cons_of_mem e he2) pr hq
      · have hpe : pr = e := by simpa using hsing
        subst hpe
        intro hcontra
        exact hd.1 (by
          have hm : e2.1 ∈ rest.map Prod.fst := List.mem_map_of_mem Prod.fst he2
          rwa [← hcontra] at hm)

/-- Keys of the rest-parameter spec, independent of the parameter record. -/
def restNames : List String :=
  ["departure_id", "arrival_id", "gl", "hl", "currency", "outbound_date",
   "return_date", "travel_class", "multi_city_json", "show_hidden",
   "deep_search", "adults", "children", "infants_in_seat", "infants_on_lap",
   "sort_by", "stops", "exclude_airlines", "include_airlines", "bags",
   "max_price", "outbound_times", "return_times", "emissions",
   "layover_duration", "exclude_conns", "max_duration", "departure_token",
   "booking_token", "no_cache", "zero_trace"]

theorem restSpec_keys (p : FlightParams) :
    (restSpec p).map Prod.fst = restNames := by
  rfl

theorem restEntries_keys_fixed (p : FlightParams) :
    ∀ e ∈ restEntries p,
      ¬(e.1 = "engine") ∧ ¬(e.1 = "api_key") ∧ ¬(e.1 = "type") ∧ ¬(e.1 = "async") := by
  intro e he
  have hm := optPairs_key_mem (restSpec p) e he
  rw [restSpec_keys] at hm
  have hall : ∀ x ∈ restNames,
      ¬(x = "engine") ∧ ¬(x = "api_key") ∧ ¬(x = "type") ∧ ¬(x = "async") := by
    decide
  exact hall e.1 hm

theorem restEntries_keys_nodup (p : FlightParams) :
    ((restEntries p).map Prod.fst).Nodup := by
  have hsub := optPairs_keys_sublist (restSpec p)
  rw [restSpec_keys] at hsub
  exact List.Nodup.sublist hsub (by decide)

/-- The flights query builder flattens to plain concatenation: every key set
after the first two is fresh. -/
theorem flightsQuery_eq (p : FlightParams) :
    flightsQuery p =
      ([("engine", "google_flights"), ("api_key", p.api_key)]
        ++ (match p.flight_type with
            | some t => [("type", flightTypeStr t)]
            | none => [])
        ++ (match p.async_search with
            | some b => [("async", boolStr b)]
            | none => []))
      ++ restEntries p := by
  have hfr : ∀ L : List (String × String),
      (∀ pr ∈ L, pr.1 = "engine" ∨ pr.1 = "api_key" ∨ pr.1 = "type" ∨ pr.1 = "async") →
      ∀ e ∈ restEntries p, ∀ pr ∈ L, ¬(pr.1 = e.1) := by
    intro L hL e he pr hpr hcon
    have hk := restEntries_keys_fixed p e he
    rcases hL pr hpr with h | h | h | h
    · exact hk.1 (hcon.symm.trans h)
    · exact hk.2.1 (hcon.symm.trans h)
    · exact hk.2.2.1 (hcon.symm.trans h)
    · exact hk.2.2.2 (hcon.symm.trans h)
  have hnd := restEntries_keys_nodup p
  cases hft : p.flight_type with
  | none =>
    cases has : p.async_search with
    | none =>
      simp only [flightsQuery, hft, has, List.append_nil]
      rw [foldSet_fresh (restEntries p) _ ?_ hnd]
      intro e he pr hpr
      refine hfr _ ?_ e he pr hpr
      intro x hx
      rcases (by simpa using hx :
          x = ("engine", "google_flights") ∨ x = ("api_key", p.api_key)) with h | h <;>
        subst h <;> simp
    | some b =>
      have s2 : setParam [("engine", "google_flights"), ("api_key", p.api_key)]
          "async" (boolStr b)
          = [("engine", "google_flights"), ("api_key", p.api_key), ("async", boolStr b)] := by
        rw [setParam_fresh]
        · rfl
        intro e he
        rcases (by simpa using he :
            e = ("engine", "google_flights") ∨ e = ("api_key", p.api_key)) with h | h <;>
          subst h <;> simp
      simp only [flightsQuery, hft, has, s2, List.append_nil]
      rw [foldSet_fresh (restEntries p) _ ?_ hnd]
      · simp
      · intro e he pr hpr
        refine hfr _ ?_ e he pr hpr
        intro x hx
        rcases (by simpa using hx :
            x = ("engine", "google_flights") ∨ x = ("api_key", p.api_key)
              ∨ x = ("async", boolStr b)) with h | h | h <;>
          subst h <;> simp
  | some t =>
    have s1 : setParam [("engine", "google_flights"), ("api_key", p.api_key)]
        "type" (flightTypeStr t)
        = [("engine", "google_flights"), ("api_key", p.api_key),
           ("type", flightTypeStr t)] := by
      rw [setParam_fresh]
      · rfl
      intro e he
      rcases (by simpa using he :
          e = ("engine", "google_flights") ∨ e = ("api_key", p.api_key)) with h | h <;>
        subst h <;> simp
    cases has : p.async_search with
    | none =>
      simp only [flightsQuery, hft, has, s1, List.append_nil]
      rw [foldSet_fresh (restEntries p) _ ?_ hnd]
      · simp
      · intro e he pr hpr
        refine hfr _ ?_ e he pr hpr
        intro x hx
        rcases (by simpa using hx :
            x = ("engine", "google_flights") ∨ x = ("api_key", p.api_key)
              ∨ x = ("type", flightTypeStr t)) with h | h | h <;>
          subst h <;> simp
    | some b =>
      have s2 : setParam
          [("engine", "google_flights"), ("api_key", p.api_key), ("type", flightTypeStr t)]
          "async" (boolStr b)
          = [("engine", "google_flights"), ("api_key", p.api_key),
             ("type", flightTypeStr t), ("async", boolStr b)] := by
        rw [setParam_fresh]
        · rfl
        intro e he
        rcases (by simpa using he :
            e = ("engine", "google_flights") ∨ e = ("api_key", p.api_key)
              ∨ e = ("type", flightTypeStr t)) with h | h | h <;>
          subst h <;> simp
      simp only [flightsQuery, hft, has, s1, s2, List.append_nil]
      rw [foldSet_fresh (restEntries p) _ ?_ hnd]
      · simp
      · intro e he pr hpr
        refine hfr _ ?_ e he pr hpr
        intro x hx
        rcases (by simpa using hx :
            x = ("engine", "google_flights") ∨ x = ("api_key", p.api_key)
              ∨ x = ("type", flightTypeStr t) ∨ x = ("async", boolStr b)) with h | h | h | h <;>
          subst h <;> simp

theorem isPrefixOf_append_self (l r : List Char) : l.isPrefixOf (l ++ r) = true := by
  simp [List.isPrefixOf_iff_prefix]

theorem containsAux_nil_pat (l : List Char) : containsAux [] l = true := by
  induction l with
  | nil => rfl
  | cons c rest ih => simp [containsAux, ih]

theorem containsAux_left (pat l r : List Char) (h : containsAux pat l = true) :
    containsAux pat (l ++ r) = true := by
  induction l with
  | nil =>
    have hp : pat = [] := by
      cases pat with
      | nil => rfl
      | cons a t => simp [containsAux] at h
    subst hp
    simpa using containsAux_nil_pat r
  | cons c t ih =>
    simp only [containsAux, Bool.or_eq_true] at h
    rcases h with h | h
    · have hpre : pat.isPrefixOf ((c :: t) ++ r) = true := by
        rw [List.isPrefixOf_iff_prefix] at h ⊢
        exact h.trans (List.prefix_append (c :: t) r)
      simp only [List.cons_append, containsAux, Bool.or_eq_true]
      left
      simpa using hpre
    · simp only [List.cons_append, containsAux, Bool.or_eq_true]
      right
      exact ih h

theorem containsAux_right (pat l r : List Char) (h : containsAux pat r = true) :
    containsAux pat (l ++ r) = true := by
  induction l with
  | nil => simpa using h
  | cons c t ih =>
    simp only [List.cons_append, containsAux, Bool.or_eq_true]
    right
    exact ih

theorem containsAux_self (l : List Char) : containsAux l l = true := by
  cases l with
  | nil => rfl
  | cons c t =>
    simp only [containsAux, Bool.or_eq_true]
    left
    rw [List.isPrefixOf_iff_prefix]

theorem containsSub_appL (s t pat : String) (h : containsSub s pat = true) :
    containsSub (s ++ t) pat = true := by
  simpa [containsSub, String.data_append] using
    containsAux_left pat.data s.data t.data h

theorem containsSub_appR (s t pat : String) (h : containsSub t pat = true) :
    containsSub (s ++ t) pat = true := by
  simpa [containsSub, String.data_append] using
    containsAux_right pat.data s.data t.data h

theorem containsSub_refl (s : String) : containsSub s s = true :=
  containsAux_self s.data

/-! Claim theorems. -/

/-- C1, counterexample: the claim says a present optional field always
produces its mapped header, but `generateImageAlt := some false` is present
and produces no `X-With-Generated-Alt` header (the handler tests JS
truthiness, not presence). -/
theorem fetch_header_presence_cx :
    rAltFalse.generateImageAlt = some false
      ∧ qFor (fetchHeaders rAltFalse) "X-With-Generated-Alt" = [] :=
  ⟨rfl, rfl⟩

/-- C1 (amended): for every FetchRequest, each request header is emitted iff
its field is present and truthy (booleans must be true, strings nonempty),
except that the numeric fields cacheTolerance and timeout emit on presence
alone; the emitted header is exactly the one mapped header, and an absent
field produces no header. -/
theorem fetch_headers_exact (r : FetchRequest) :
    qFor (fetchHeaders r) "Authorization"
        = (match r.apiKey with
           | some s => if s == "" then [] else [("Authorization", "Bearer " ++ s)]
           | none => [])
    ∧ qFor (fetchHeaders r) "X-With-Generated-Alt"
        = (match r.generateImageAlt with
           | some b => if b then [("X-With-Generated-Alt", "true")] else []
           | none => [])
    ∧ qFor (fetchHeaders r) "X-Set-Cookie"
        = (match r.cookies with
           | some s => if s == "" then [] else [("X-Set-Cookie", s)]
           | none => [])
    ∧ qFor (fetchHeaders r) "X-Respond-With"
        = (match r.outputFormat with
           | some f => [("X-Respond-With", outputFormatStr f)]
           | none => [])
    ∧ qFor (fetchHeaders r) "X-Proxy-Url"
        = (match r.proxyUrl with
           | some s => if s == "" then [] else [("X-Proxy-Url", s)]
           | none => [])
    ∧ qFor (fetchHeaders r) "X-Cache-Tolerance"
        = (match r.cacheTolerance with
           | some n => [("X-Cache-Tolerance", toString n)]
           | none => [])
    ∧ qFor (fetchHeaders r) "X-No-Cache"
        = (match r.noCache with
           | some b => if b then [("X-No-Cache", "true")] else []
           | none => [])
    ∧ qFor (fetchHeaders r) "X-Target-Selector"
        = (match r.targetSelector with
           | some s => if s == "" then [] else [("X-Target-Selector", s)]
           | none => [])
    ∧ qFor (fetchHeaders r) "X-Wait-For-Selector"
        = (match r.waitForSelector with
           | some s => if s == "" then [] else [("X-Wait-For-Selector", s)]
           | none => [])
    ∧ qFor (fetchHeaders r) "X-Timeout"
        = (match r.timeout with
           | some n => [("X-Timeout", toString n)]
           | none => [])
    ∧ qFor (fetchHeaders r) "Accept"
        = (match r.jsonOutput with
           | some b => if b then [("Accept", "application/json")] else []
           | none => []) := by
  obtain ⟨u, ak, gia, ck, ofm, pu, ct, nc, ts, ws, tm, jo, up⟩ := r
  refine ⟨?_, ?_, ?_, ?_, ?_, ?_, ?_, ?_, ?_, ?_, ?_⟩
  · cases ak <;>
      (simp only [fetchHeaders, qFor_append, qFor_condStr, qFor_condBool, qFor_presentNum]
       simp [condStr, condBool, presentNum])
  · cases gia <;>
      (simp only [fetchHeaders, qFor_append, qFor_condStr, qFor_condBool, qFor_presentNum]
       simp [condStr, condBool, presentNum])
  · cases ck <;>
      (simp only [fetchHeaders, qFor_append, qFor_condStr, qFor_condBool, qFor_presentNum]
       simp [condStr, condBool, presentNum])
  · cases ofm with
    | none =>
      simp only [fetchHeaders, qFor_append, qFor_condStr, qFor_condBool, qFor_presentNum]
      simp [condStr, condBool, presentNum]
    | some f =>
      cases f <;>
        (simp only [fetchHeaders, qFor_append, qFor_condStr, qFor_condBool, qFor_presentNum]
         simp [condStr, condBool, presentNum, outputFormatStr])
  · cases pu <;>
      (simp only [fetchHeaders, qFor_append, qFor_condStr, qFor_condBool, qFor_presentNum]
       simp [condStr, condBool, presentNum])
  · cases ct <;>
      (simp only [fetchHeaders, qFor_append, qFor_condStr, qFor_condBool, qFor_presentNum]
       simp [condStr, condBool, presentNum])
  · cases nc <;>
      (simp only [fetchHeaders, qFor_append, qFor_condStr, qFor_condBool, qFor_presentNum]
       simp [condStr, condBool, presentNum])
  · cases ts <;>
      (simp only [fetchHeaders, qFor_append, qFor_condStr, qFor_condBool, qFor_presentNum]
       simp [condStr, condBool, presentNum])
  · cases ws <;>
      (simp only [fetchHeaders, qFor_append, qFor_condStr, qFor_condBool, qFor_presentNum]
       simp [condStr, condBool, presentNum])
  · cases tm <;>
      (simp only [fetchHeaders, qFor_append, qFor_condStr, qFor_condBool, qFor_presentNum]
       simp [condStr, condBool, presentNum])
  · cases jo <;>
      (simp only [fetchHeaders, qFor_append, qFor_condStr, qFor_condBool, qFor_presentNum]
       simp [condStr, condBool, presentNum])

/-- C5, counterexample: `count` and `num` are both present (value 0, valid
per the 0-20 schema bound) yet neither is appended to the query string,
because the handler tests JS truthiness and 0 is falsy. -/
theorem search_count_zero_cx :
    sZero.count = some 0 ∧ sZero.num = some 0
      ∧ qFor (searchQueryEntries sZero) "count" = []
      ∧ qFor (searchQueryEntries sZero) "num" = [] :=
  ⟨rfl, rfl, rfl, rfl⟩

/-- C5 (amended): every present scalar field whose value is JS-truthy
(nonempty string, nonzero number) is appended exactly once; a present zero
count, num or page and a present empty string are omitted; `fallback` is
always appended and `nfpr` is appended exactly when present; in particular
when both count and num are present and nonzero, both are appended
independently as separate parameters. -/
theorem search_scalar_append (r : SearchRequest) :
    qFor (searchQueryEntries r) "q" = [("q", r.q)]
    ∧ qFor (searchQueryEntries r) "type" = [("type", searchTypeStr r.type)]
    ∧ qFor (searchQueryEntries r) "provider"
        = (match r.provider with
           | some pv => [("provider", searchProviderStr pv)]
           | none => [])
    ∧ qFor (searchQueryEntries r) "count"
        = (match r.count with
           | some n => if n == 0 then [] else [("count", toString n)]
           | none => [])
    ∧ qFor (searchQueryEntries r) "num"
        = (match r.num with
           | some n => if n == 0 then [] else [("num", toString n)]
           | none => [])
    ∧ qFor (searchQueryEntries r) "gl"
        = (match r.gl with
           | some s => if s == "" then [] else [("gl", s)]
           | none => [])
    ∧ qFor (searchQueryEntries r) "hl"
        = (match r.hl with
           | some s => if s == "" then [] else [("hl", s)]
           | none => [])
    ∧ qFor (searchQueryEntries r) "location"
        = (match r.location with
           | some s => if s == "" then [] else [("location", s)]
           | none => [])
    ∧ qFor (searchQueryEntries r) "page"
        = (match r.page with
           | some n => if n == 0 then [] else [("page", toString n)]
           | none => [])
    ∧ qFor (searchQueryEntries r) "fallback" = [("fallback", boolStr r.fallback)]
    ∧ qFor (searchQueryEntries r) "nfpr"
        = (match r.nfpr with
           | some b => [("nfpr", boolStr b)]
           | none => []) := by
  obtain ⟨q, ak, ty, pv, cnt, nm, gl2, hl2, loc2, pg, fb, nf, ex, ft, it, si, lo, ofm, nc, ct⟩ := r
  refine ⟨?_, ?_, ?_, ?_, ?_, ?_, ?_, ?_, ?_, ?_, ?_⟩
  · simp only [searchQueryEntries, qFor_append, qFor_single, qFor_condStr, qFor_condNum,
      qFor_presentBool, qFor_arrEntries]
    simp [condStr, condNum, presentBool, arrEntries]
  · cases ty <;>
      (simp only [searchQueryEntries, qFor_append, qFor_single, qFor_condStr, qFor_condNum,
        qFor_presentBool, qFor_arrEntries]
       simp [condStr, condNum, presentBool, arrEntries, searchTypeStr])
  · cases pv with
    | none =>
      simp only [searchQueryEntries, qFor_append, qFor_single, qFor_condStr, qFor_condNum,
        qFor_presentBool, qFor_arrEntries]
      simp [condStr, condNum, presentBool, arrEntries]
    | some v =>
      cases v <;>
        (simp only [searchQueryEntries, qFor_append, qFor_single, qFor_condStr, qFor_condNum,
          qFor_presentBool, qFor_arrEntries]
         simp [condStr, condNum, presentBool, arrEntries, searchProviderStr])
  · cases cnt <;>
      (simp only [searchQueryEntries, qFor_append, qFor_single, qFor_condStr, qFor_condNum,
        qFor_presentBool, qFor_arrEntries]
       simp [condStr, condNum, presentBool, arrEntries])
  · cases nm <;>
      (simp only [searchQueryEntries, qFor_append, qFor_single, qFor_condStr, qFor_condNum,
        qFor_presentBool, qFor_arrEntries]
       simp [condStr, condNum, presentBool, arrEntries])
  · cases gl2 <;>
      (simp only [searchQueryEntries, qFor_append, qFor_single, qFor_condStr, qFor_condNum,
        qFor_presentBool, qFor_arrEntries]
       simp [condStr, condNum, presentBool, arrEntries])
  · cases hl2 <;>
      (simp only [searchQueryEntries, qFor_append, qFor_single, qFor_condStr, qFor_condNum,
        qFor_presentBool, qFor_arrEntries]
       simp [condStr, condNum, presentBool, arrEntries])
  · cases loc2 <;>
      (simp only [searchQueryEntries, qFor_append, qFor_single, qFor_condStr, qFor_condNum,
        qFor_presentBool, qFor_arrEntries]
       simp [condStr, condNum, presentBool, arrEntries])
  · cases pg <;>
      (simp only [searchQueryEntries, qFor_append, qFor_single, qFor_condStr, qFor_condNum,
        qFor_presentBool, qFor_arrEntries]
       simp [condStr, condNum, presentBool, arrEntries])
  · simp only [searchQueryEntries, qFor_append, qFor_single, qFor_condStr, qFor_condNum,
      qFor_presentBool, qFor_arrEntries]
    simp [condStr, condNum, presentBool, arrEntries]
  · cases nf <;>
      (simp only [searchQueryEntries, qFor_append, qFor_single, qFor_condStr, qFor_condNum,
        qFor_presentBool, qFor_arrEntries]
       simp [condStr, condNum, presentBool, arrEntries])

/-- C6: for every SearchRequest and each array-valued filter (ext, filetype,
intitle, site, loc), the query entries under that key are exactly one entry
per array element, in array order (and none when the field is absent). -/
theorem search_array_filters (r : SearchRequest) :
    qFor (searchQueryEntries r) "ext"
        = (match r.ext with
           | some l => l.map (fun v => ("ext", v))
           | none => [])
    ∧ qFor (searchQueryEntries r) "filetype"
        = (match r.filetype with
           | some l => l.map (fun v => ("filetype", v))
           | none => [])
    ∧ qFor (searchQueryEntries r) "intitle"
        = (match r.intitle with
           | some l => l.map (fun v => ("intitle", v))
           | none => [])
    ∧ qFor (searchQueryEntries r) "site"
        = (match r.site with
           | some l => l.map (fun v => ("site", v))
           | none => [])
    ∧ qFor (searchQueryEntries r) "loc"
        = (match r.loc with
           | some l => l.map (fun v => ("loc", v))
           | none => []) := by
  obtain ⟨q, ak, ty, pv, cnt, nm, gl2, hl2, loc2, pg, fb, nf, ex, ft, it, si, lo, ofm, nc, ct⟩ := r
  refine ⟨?_, ?_, ?_, ?_, ?_⟩
  · rcases ex with _ | ⟨_ | ⟨a, l⟩⟩ <;>
      (simp only [searchQueryEntries, qFor_append, qFor_single, qFor_condStr, qFor_condNum,
        qFor_presentBool, qFor_arrEntries]
       simp [condStr, condNum, presentBool, arrEntries])
  · rcases ft with _ | ⟨_ | ⟨a, l⟩⟩ <;>
      (simp only [searchQueryEntries, qFor_append, qFor_single, qFor_condStr, qFor_condNum,
        qFor_presentBool, qFor_arrEntries]
       simp [condStr, condNum, presentBool, arrEntries])
  · rcases it with _ | ⟨_ | ⟨a, l⟩⟩ <;>
      (simp only [searchQueryEntries, qFor_append, qFor_single, qFor_condStr, qFor_condNum,
        qFor_presentBool, qFor_arrEntries]
       simp [condStr, condNum, presentBool, arrEntries])
  · rcases si with _ | ⟨_ | ⟨a, l⟩⟩ <;>
      (simp only [searchQueryEntries, qFor_append, qFor_single, qFor_condStr, qFor_condNum,
        qFor_presentBool, qFor_arrEntries]
       simp [condStr, condNum, presentBool, arrEntries])
  · rcases lo with _ | ⟨_ | ⟨a, l⟩⟩ <;>
      (simp only [searchQueryEntries, qFor_append, qFor_single, qFor_condStr, qFor_condNum,
        qFor_presentBool, qFor_arrEntries]
       simp [condStr, condNum, presentBool, arrEntries])

/-- C3: the fetch tool issues a POST to the fixed base endpoint with a
form-encoded body carrying the target URL (and the form content-type
header) iff usePostForUrl is true; otherwise it issues a GET whose URL is
the base endpoint path-concatenated with the raw target URL, never
query-encoded, with no body and no content-type header. -/
theorem fetch_method_selection (r : FetchRequest) :
    (r.usePostForUrl = some true →
      buildFetchRequest r =
        { method := HttpMethod.post
          url := "https://r.jina.ai/"
          headers := fetchHeaders r ++ [("Content-Type", "application/x-www-form-urlencoded")]
          body := some ("url=" ++ formEncode r.url) })
    ∧ (¬(r.usePostForUrl = some true) →
      buildFetchRequest r =
        { method := HttpMethod.get
          url := "https://r.jina.ai/" ++ r.url
          headers := fetchHeaders r
          body := none })
    ∧ ((buildFetchRequest r).method = HttpMethod.post ↔ r.usePostForUrl = some true)
    ∧ (fetchHandler r (fun _ => HttpOutcome.networkError "")).1 = buildFetchRequest r := by
  have h1 : formEncode "url" = "url" := by decide
  have hurl : queryToString [("url", r.url)] = "url=" ++ formEncode r.url := by
    simp [queryToString, h1]
    rfl
  obtain ⟨u, ak, gia, ck, ofm, pu, ct, nc, ts, ws, tm, jo, up⟩ := r
  rcases up with _ | b
  · refine ⟨fun h => ?_, fun _ => ?_, ?_, rfl⟩
    · exact absurd h (by simp)
    · simp [buildFetchRequest, boolTruthy, jinaBaseUrl]
    · simp [buildFetchRequest, boolTruthy]
  · cases b
    · refine ⟨fun h => ?_, fun _ => ?_, ?_, rfl⟩
      · exact absurd h (by simp)
      · simp [buildFetchRequest, boolTruthy, jinaBaseUrl]
      · simp [buildFetchRequest, boolTruthy]
    · refine ⟨fun _ => ?_, fun h => absurd rfl h, ?_, rfl⟩
      · simp [buildFetchRequest, boolTruthy, jinaBaseUrl, hurl]
      · simp [buildFetchRequest, boolTruthy]

/-- C3, witness: the theorem applied to a POST-mode and a plain request. -/
theorem fetch_method_selection_witness :
    buildFetchRequest rPost =
      { method := HttpMethod.post
        url := "https://r.jina.ai/"
        headers := fetchHeaders rPost ++ [("Content-Type", "application/x-www-form-urlencoded")]
        body := some ("url=" ++ formEncode rPost.url) }
    ∧ buildFetchRequest rPlain =
      { method := HttpMethod.get
        url := "https://r.jina.ai/" ++ rPlain.url
        headers := fetchHeaders rPlain
        body := none } :=
  ⟨(fetch_method_selection rPost).1 rfl,
   (fetch_method_selection rPlain).2.1 (by simp [rPlain])⟩

/-- C7: when the upstream call completes with a non-2xx status, the fetch
tool returns an error-flagged result embedding the status code, status text
and response body; in particular for status 404 with body "not found" the
text contains "404" and "not found". -/
theorem fetch_upstream_error (r : FetchRequest) (o : HttpRequest → HttpOutcome)
    (resp : HttpResponse) (h : o (buildFetchRequest r) = .success resp)
    (hng : respOk resp = false) :
    (fetchHandler r o).2 =
      { content := [⟨"text", "Error fetching URL: " ++ toString resp.status ++ " "
          ++ resp.statusText ++ ". " ++ resp.body⟩], isError := true }
    ∧ (resp.status = 404 → resp.body = "not found" →
        containsSub (firstText (fetchHandler r o).2) "404" = true
        ∧ containsSub (firstText (fetchHandler r o).2) "not found" = true) := by
  have hmain : (fetchHandler r o).2 =
      { content := [⟨"text", "Error fetching URL: " ++ toString resp.status ++ " "
          ++ resp.statusText ++ ". " ++ resp.body⟩], isError := true } := by
    simp [fetchHandler, fetchTranslate, h, hng]
  refine ⟨hmain, fun h404 hbody => ?_⟩
  rw [hmain]
  have htext : firstText
      { content := [⟨"text", "Error fetching URL: " ++ toString resp.status ++ " "
          ++ resp.statusText ++ ". " ++ resp.body⟩], isError := true }
      = "Error fetching URL: " ++ toString resp.status ++ " "
          ++ resp.statusText ++ ". " ++ resp.body := rfl
  rw [htext, h404, hbody]
  constructor
  · exact containsSub_appL _ _ _ (containsSub_appL _ _ _ (containsSub_appL _ _ _
      (containsSub_appR "Error fetching URL: " (toString (404 : Nat)) "404"
        (by rw [show toString (404 : Nat) = "404" from rfl]; exact containsSub_refl "404"))))
  · exact containsSub_appR _ _ _ (containsSub_refl "not found")

/-- C7, witness: the theorem applied to the 404 oracle. -/
theorem fetch_upstream_error_witness :
    (fetchHandler rPlain fetchOracle404).2 =
      { content := [⟨"text", "Error fetching URL: " ++ toString (404 : Nat) ++ " "
          ++ "Not Found" ++ ". " ++ "not found"⟩], isError := true }
    ∧ containsSub (firstText (fetchHandler rPlain fetchOracle404).2) "404" = true :=
  ⟨(fetch_upstream_error rPlain fetchOracle404 ⟨404, "Not Found", "not found"⟩ rfl rfl).1,
   ((fetch_upstream_error rPlain fetchOracle404 ⟨404, "Not Found", "not found"⟩ rfl rfl).2
      rfl rfl).1⟩

/-- C8: when the outbound call fails at the network level, each of the three
tool handlers returns an error-flagged result embedding the exception's
description; the handlers are total functions so no fault propagates. -/
theorem network_faults_converted (r : FetchRequest) (s : SearchRequest) (p : FlightParams)
    (o1 : HttpRequest → HttpOutcome) (o2 : HttpRequest → HttpOutcome)
    (o3 : String → FlightOutcome) (mf ms mp : String)
    (hf : o1 (buildFetchRequest r) = .networkError mf)
    (hs : o2 (buildSearchRequest s) = .networkError ms)
    (hpv : flightsIssues p = [])
    (hp : o3 (flightsUrl p) = .networkError mp) :
    (fetchHandler r o1).2 =
      { content := [⟨"text", "Network error fetching URL: " ++ mf⟩], isError := true }
    ∧ (searchHandler s o2).2 =
      { content := [⟨"text", "Network error during search: " ++ ms⟩], isError := true }
    ∧ (flightsHandler p o3).2 =
      { content := [⟨"text", "Failed to fetch flight data: " ++ mp⟩], isError := true } := by
  refine ⟨?_, ?_, ?_⟩
  · simp [fetchHandler, fetchTranslate, hf]
  · simp [searchHandler, searchTranslate, hs]
  · simp [flightsHandler, hpv, flightsTranslate, hp]

/-- C8, witness: the theorem applied to the constant network-fault oracles. -/
theorem network_faults_converted_witness :
    (fetchHandler rPlain fetchOracleNet).2 =
      { content := [⟨"text", "Network error fetching URL: " ++ "ECONNRESET"⟩], isError := true }
    ∧ (searchHandler sMin fetchOracleNet).2 =
      { content := [⟨"text", "Network error during search: " ++ "ECONNRESET"⟩], isError := true }
    ∧ (flightsHandler pMin flightOracleNet).2 =
      { content := [⟨"text", "Failed to fetch flight data: " ++ "ECONNRESET"⟩], isError := true } :=
  network_faults_converted rPlain sMin pMin fetchOracleNet fetchOracleNet flightOracleNet
    "ECONNRESET" "ECONNRESET" "ECONNRESET" rfl rfl rfl rfl

/-- C9: every tool handler is deterministic: the result envelope is a pure
function of the input parameters and the upstream oracle's answer at the
single issued request, with no hidden state read or mutated. -/
theorem tools_deterministic (r : FetchRequest) (s : SearchRequest) (p : FlightParams)
    (o1 o2 q1 q2 : HttpRequest → HttpOutcome) (f1 f2 : String → FlightOutcome)
    (ho : o1 (buildFetchRequest r) = o2 (buildFetchRequest r))
    (hq : q1 (buildSearchRequest s) = q2 (buildSearchRequest s))
    (hf : f1 (flightsUrl p) = f2 (flightsUrl p)) :
    fetchHandler r o1 = fetchHandler r o2
    ∧ searchHandler s q1 = searchHandler s q2
    ∧ flightsHandler p f1 = flightsHandler p f2 := by
  refine ⟨?_, ?_, ?_⟩
  · simp [fetchHandler, ho]
  · simp [searchHandler, hq]
  · cases hv : (flightsIssues p).isEmpty <;> simp [flightsHandler, hv, hf]

/-- C9, witness: the theorem applied to identical concrete oracles. -/
theorem tools_deterministic_witness :
    fetchHandler rPlain fetchOracleNet = fetchHandler rPlain fetchOracleNet
    ∧ searchHandler sMin fetchOracleNet = searchHandler sMin fetchOracleNet
    ∧ flightsHandler pMin flightOracleNet = flightsHandler pMin flightOracleNet :=
  tools_deterministic rPlain sMin pMin fetchOracleNet fetchOracleNet fetchOracleNet
    fetchOracleNet flightOracleNet flightOracleNet rfl rfl rfl

/-- C2, counterexample: both airline fields are present (the spec invariant
says they must not both be present) yet validation passes and an outbound
HTTP request is issued, because the refinement tests JS truthiness and the
empty string is falsy. -/
theorem flights_validation_presence_cx :
    pExclEmpty.exclude_airlines.isSome = true
    ∧ pExclEmpty.include_airlines.isSome = true
    ∧ flightsIssues pExclEmpty = []
    ∧ (flightsHandler pExclEmpty flightOracleNet).1 = some (flightsUrl pExclEmpty) :=
  ⟨rfl, rfl, rfl, rfl⟩

/-- C2 (amended): for every well-shaped FlightSearchRequest that violates at
least one cross-field rule as the code checks it (both airline lists truthy;
both tokens truthy; no_cache and async_search both true; round trip without
return_date; multi-city without multi_city_json), the tool returns an
error-flagged result whose text renders the aggregated issue list, each fired
rule contributes its field path and message to that list, and no outbound
HTTP request is issued. -/
theorem flights_validation_reports (p : FlightParams) (o : String → FlightOutcome)
    (_hws : wellShaped p = true)
    (hv : (ruleExclFires p || ruleTokenFires p || ruleCacheFires p
        || ruleRoundFires p || ruleMultiFires p) = true) :
    flightsHandler p o =
      (none, { content := [⟨"text", "Input validation error: "
          ++ formatIssues (flightsIssues p)⟩], isError := true })
    ∧ (ruleExclFires p = true → exclAirlinesIssue ∈ flightsIssues p)
    ∧ (ruleTokenFires p = true → tokenIssue ∈ flightsIssues p)
    ∧ (ruleCacheFires p = true → cacheIssue ∈ flightsIssues p)
    ∧ (ruleRoundFires p = true → returnDateIssue ∈ flightsIssues p)
    ∧ (ruleMultiFires p = true → multiCityIssue ∈ flightsIssues p) := by
  have hne : flightsIssues p ≠ [] := by
    simp only [Bool.or_eq_true] at hv
    rcases hv with (((h | h) | h) | h) | h <;> simp [flightsIssues, h]
  have hb : (flightsIssues p).isEmpty = false := by
    cases hE : (flightsIssues p).isEmpty
    · rfl
    · exact absurd (List.isEmpty_iff.mp hE) hne
  refine ⟨?_, fun h => ?_, fun h => ?_, fun h => ?_, fun h => ?_, fun h => ?_⟩
  · simp [flightsHandler, hb]
  · simp [flightsIssues, h]
  · simp [flightsIssues, h]
  · simp [flightsIssues, h]
  · simp [flightsIssues, h]
  · simp [flightsIssues, h]

/-- C2, witness: the theorem applied to the cache-rule conflict. -/
theorem flights_validation_reports_witness :
    flightsHandler pCacheConflict flightOracleNet =
      (none, { content := [⟨"text", "Input validation error: "
          ++ formatIssues (flightsIssues pCacheConflict)⟩], isError := true })
    ∧ cacheIssue ∈ flightsIssues pCacheConflict :=
  ⟨(flights_validation_reports pCacheConflict flightOracleNet (by decide) (by decide)).1,
   (flights_validation_reports pCacheConflict flightOracleNet (by decide) (by decide)).2.2.2.1
     (by decide)⟩

/-- Restriction of the flights query to any key outside the four fixed ones
is determined by the rest-parameter spec alone. -/
theorem qFor_flightsQuery_rest (p : FlightParams) (k : String)
    (hk1 : ¬(k = "engine")) (hk2 : ¬(k = "api_key"))
    (hk3 : ¬(k = "type")) (hk4 : ¬(k = "async")) :
    qFor (flightsQuery p) k = optPairs ((restSpec p).filter (fun e => e.1 == k)) := by
  have b1 : (("engine" : String) == k) = false := by
    simpa using fun hc => hk1 hc.symm
  have b2 : (("api_key" : String) == k) = false := by
    simpa using fun hc => hk2 hc.symm
  have b3 : (("type" : String) == k) = false := by
    simpa using fun hc => hk3 hc.symm
  have b4 : (("async" : String) == k) = false := by
    simpa using fun hc => hk4 hc.symm
  rw [flightsQuery_eq, qFor_append, qFor_append, qFor_append, restEntries, qFor_optPairs]
  have hm1 : qFor [("engine", "google_flights"), ("api_key", p.api_key)] k = [] := by
    simp [qFor, b1, b2]
  have hm2 : qFor (match p.flight_type with
      | some t => [("type", flightTypeStr t)]
      | none => []) k = [] := by
    cases p.flight_type <;> simp [qFor, b3]
  have hm3 : qFor (match p.async_search with
      | some b => [("async", boolStr b)]
      | none => []) k = [] := by
    cases p.async_search <;> simp [qFor, b4]
  rw [hm1, hm2, hm3]
  rfl

/-- C4: for every well-shaped FlightSearchRequest that passes validation, the
issued URL's query contains the fixed engine parameter and the api_key; the
flight_type field is serialized under the key "type" and async_search under
"async" (with nothing under their original names); every other present field
appears exactly once under its original name with booleans and numbers
stringified; and every absent field is omitted entirely. -/
theorem flights_query_serialization (p : FlightParams) (o : String → FlightOutcome)
    (_hws : wellShaped p = true) (hok : flightsIssues p = []) :
    (flightsHandler p o).1
        = some ("https://serpapi.com/search.json?" ++ queryToString (flightsQuery p))
    ∧ qFor (flightsQuery p) "engine" = [("engine", "google_flights")]
    ∧ qFor (flightsQuery p) "api_key" = [("api_key", p.api_key)]
    ∧ qFor (flightsQuery p) "type"
        = (match p.flight_type with
           | some t => [("type", flightTypeStr t)]
           | none => [])
    ∧ qFor (flightsQuery p) "async"
        = (match p.async_search with
           | some b => [("async", boolStr b)]
           | none => [])
    ∧ qFor (flightsQuery p) "flight_type" = []
    ∧ qFor (flightsQuery p) "async_search" = []
    ∧ qFor (flightsQuery p) "departure_id"
        = (match p.departure_id with
           | some v => [("departure_id", v)]
           | none => [])
    ∧ qFor (flightsQuery p) "arrival_id"
        = (match p.arrival_id with
           | some v => [("arrival_id", v)]
           | none => [])
    ∧ qFor (flightsQuery p) "gl"
        = (match p.gl with
           | some v => [("gl", v)]
           | none => [])
    ∧ qFor (flightsQuery p) "hl"
        = (match p.hl with
           | some v => [("hl", v)]
           | none => [])
    ∧ qFor (flightsQuery p) "currency"
        = (match p.currency with
           | some v => [("currency", v)]
           | none => [])
    ∧ qFor (flightsQuery p) "outbound_date"
        = (match p.outbound_date with
           | some v => [("outbound_date", v)]
           | none => [])
    ∧ qFor (flightsQuery p) "return_date"
        = (match p.return_date with
           | some v => [("return_date", v)]
           | none => [])
    ∧ qFor (flightsQuery p) "travel_class"
        = (match p.travel_class with
           | some x => [("travel_class", travelClassStr x)]
           | none => [])
    ∧ qFor (flightsQuery p) "multi_city_json"
        = (match p.multi_city_json with
           | some v => [("multi_city_json", v)]
           | none => [])
    ∧ qFor (flightsQuery p) "show_hidden"
        = (match p.show_hidden with
           | some b => [("show_hidden", boolStr b)]
           | none => [])
    ∧ qFor (flightsQuery p) "deep_search"
        = (match p.deep_search with
           | some b => [("deep_search", boolStr b)]
           | none => [])
    ∧ qFor (flightsQuery p) "adults"
        = (match p.adults with
           | some n => [("adults", toString n)]
           | none => [])
    ∧ qFor (flightsQuery p) "children"
        = (match p.children with
           | some n => [("children", toString n)]
           | none => [])
    ∧ qFor (flightsQuery p) "infants_in_seat"
        = (match p.infants_in_seat with
           | some n => [("infants_in_seat", toString n)]
           | none => [])
    ∧ qFor (flightsQuery p) "infants_on_lap"
        = (match p.infants_on_lap with
           | some n => [("infants_on_lap", toString n)]
           | none => [])
    ∧ qFor (flightsQuery p) "sort_by"
        = (match p.sort_by with
           | some x => [("sort_by", sortByStr x)]
           | none => [])
    ∧ qFor (flightsQuery p) "stops"
        = (match p.stops with
           | some x => [("stops", stopsStr x)]
           | none => [])
    ∧ qFor (flightsQuery p) "exclude_airlines"
        = (match p.exclude_airlines with
           | some v => [("exclude_airlines", v)]
           | none => [])
    ∧ qFor (flightsQuery p) "include_airlines"
        = (match p.include_airlines with
           | some v => [("include_airlines", v)]
           | none => [])
    ∧ qFor (flightsQuery p) "bags"
        = (match p.bags with
           | some n => [("bags", toString n)]
           | none => [])
    ∧ qFor (flightsQuery p) "max_price"
        = (match p.max_price with
           | some n => [("max_price", toString n)]
           | none => [])
    ∧ qFor (flightsQuery p) "outbound_times"
        = (match p.outbound_times with
           | some v => [("outbound_times", v)]
           | none => [])
    ∧ qFor (flightsQuery p) "return_times"
        = (match p.return_times with
           | some v => [("return_times", v)]
           | none => [])
    ∧ qFor (flightsQuery p) "emissions"
        = (match p.emissions with
           | some x => [("emissions", emissionsStr x)]
           | none => [])
    ∧ qFor (flightsQuery p) "layover_duration"
        = (match p.layover_duration with
           | some v => [("layover_duration", v)]
           | none => [])
    ∧ qFor (flightsQuery p) "exclude_conns"
        = (match p.exclude_conns with
           | some v => [("exclude_conns", v)]
           | none => [])
    ∧ qFor (flightsQuery p) "max_duration"
        = (match p.max_duration with
           | some n => [("max_duration", toString n)]
           | none => [])
    ∧ qFor (flightsQuery p) "departure_token"
        = (match p.departure_token with
           | some v => [("departure_token", v)]
           | none => [])
    ∧ qFor (flightsQuery p) "booking_token"
        = (match p.booking_token with
           | some v => [("booking_token", v)]
           | none => [])
    ∧ qFor (flightsQuery p) "no_cache"
        = (match p.no_cache with
           | some b => [("no_cache", boolStr b)]
           | none => [])
    ∧ qFor (flightsQuery p) "zero_trace"
        = (match p.zero_trace with
           | some b => [("zero_trace", boolStr b)]
           | none => []) := by
  refine ⟨?_, ?_, ?_, ?_, ?_, ?_, ?_, ?_, ?_, ?_, ?_, ?_, ?_, ?_, ?_, ?_, ?_, ?_, ?_, ?_, ?_, ?_, ?_, ?_, ?_, ?_, ?_, ?_, ?_, ?_, ?_, ?_, ?_, ?_, ?_, ?_, ?_, ?_⟩
  · simp [flightsHandler, hok, flightsUrl]
  · rw [flightsQuery_eq, qFor_append, qFor_append, qFor_append, restEntries, qFor_optPairs]
    cases hft : p.flight_type <;> cases has : p.async_search <;>
      simp [qFor, restSpec, optPairs, hft, has]
  · rw [flightsQuery_eq, qFor_append, qFor_append, qFor_append, restEntries, qFor_optPairs]
    cases hft : p.flight_type <;> cases has : p.async_search <;>
      simp [qFor, restSpec, optPairs, hft, has]
  · rw [flightsQuery_eq, qFor_append, qFor_append, qFor_append, restEntries, qFor_optPairs]
    cases hft : p.flight_type <;> cases has : p.async_search <;>
      simp [qFor, restSpec, optPairs, hft, has]
  · rw [flightsQuery_eq, qFor_append, qFor_append, qFor_append, restEntries, qFor_optPairs]
    cases hft : p.flight_type <;> cases has : p.async_search <;>
      simp [qFor, restSpec, optPairs, hft, has]
  · rw [qFor_flightsQuery_rest p "flight_type" (by decide) (by decide) (by decide) (by decide)]
    simp [restSpec, optPairs]
  · rw [qFor_flightsQuery_rest p "async_search" (by decide) (by decide) (by decide) (by decide)]
    simp [restSpec, optPairs]
  · rw [qFor_flightsQuery_rest p "departure_id" (by decide) (by decide) (by decide) (by decide)]
    cases hx : p.departure_id <;> simp [restSpec, optPairs, hx]
  · rw [qFor_flightsQuery_rest p "arrival_id" (by decide) (by decide) (by decide) (by decide)]
    cases hx : p.arrival_id <;> simp [restSpec, optPairs, hx]
  · rw [qFor_flightsQuery_rest p "gl" (by decide) (by decide) (by decide) (by decide)]
    cases hx : p.gl <;> simp [restSpec, optPairs, hx]
  · rw [qFor_flightsQuery_rest p "hl" (by decide) (by decide) (by decide) (by decide)]
    cases hx : p.hl <;> simp [restSpec, optPairs, hx]
  · rw [qFor_flightsQuery_rest p "currency" (by decide) (by decide) (by decide) (by decide)]
    cases hx : p.currency <;> simp [restSpec, optPairs, hx]
  · rw [qFor_flightsQuery_rest p "outbound_date" (by decide) (by decide) (by decide) (by decide)]
    cases hx : p.outbound_date <;> simp [restSpec, optPairs, hx]
  · rw [qFor_flightsQuery_rest p "return_date" (by decide) (by decide) (by decide) (by decide)]
    cases hx : p.return_date <;> simp [restSpec, optPairs, hx]
  · rw [qFor_flightsQuery_rest p "travel_class" (by decide) (by decide) (by decide) (by decide)]
    cases hx : p.travel_class <;> simp [restSpec, optPairs, hx]
  · rw [qFor_flightsQuery_rest p "multi_city_json" (by decide) (by decide) (by decide) (by decide)]
    cases hx : p.multi_city_json <;> simp [restSpec, optPairs, hx]
  · rw [qFor_flightsQuery_rest p "show_hidden" (by decide) (by decide) (by decide) (by decide)]
    cases hx : p.show_hidden <;> simp [restSpec, optPairs, hx]
  · rw [qFor_flightsQuery_rest p "deep_search" (by decide) (by decide) (by decide) (by decide)]
    cases hx : p.deep_search <;> simp [restSpec, optPairs, hx]
  · rw [qFor_flightsQuery_rest p "adults" (by decide) (by decide) (by decide) (by decide)]
    cases hx : p.adults <;> simp [restSpec, optPairs, hx]
  · rw [qFor_flightsQuery_rest p "children" (by decide) (by decide) (by decide) (by decide)]
    cases hx : p.children <;> simp [restSpec, optPairs, hx]
  · rw [qFor_flightsQuery_rest p "infants_in_seat" (by decide) (by decide) (by decide) (by decide)]
    cases hx : p.infants_in_seat <;> simp [restSpec, optPairs, hx]
  · rw [qFor_flightsQuery_rest p "infants_on_lap" (by decide) (by decide) (by decide) (by decide)]
    cases hx : p.infants_on_lap <;> simp [restSpec, optPairs, hx]
  · rw [qFor_flightsQuery_rest p "sort_by" (by decide) (by decide) (by decide) (by decide)]
    cases hx : p.sort_by <;> simp [restSpec, optPairs, hx]
  · rw [qFor_flightsQuery_rest p "stops" (by decide) (by decide) (by decide) (by decide)]
    cases hx : p.stops <;> simp [restSpec, optPairs, hx]
  · rw [qFor_flightsQuery_rest p "exclude_airlines" (by decide) (by decide) (by decide) (by decide)]
    cases hx : p.exclude_airlines <;> simp [restSpec, optPairs, hx]
  · rw [qFor_flightsQuery_rest p "include_airlines" (by decide) (by decide) (by decide) (by decide)]
    cases hx : p.include_airlines <;> simp [restSpec, optPairs, hx]
  · rw [qFor_flightsQuery_rest p "bags" (by decide) (by decide) (by decide) (by decide)]
    cases hx : p.bags <;> simp [restSpec, optPairs, hx]
  · rw [qFor_flightsQuery_rest p "max_price" (by decide) (by decide) (by decide) (by decide)]
    cases hx : p.max_price <;> simp [restSpec, optPairs, hx]
  · rw [qFor_flightsQuery_rest p "outbound_times" (by decide) (by decide) (by decide) (by decide)]
    cases hx : p.outbound_times <;> simp [restSpec, optPairs, hx]
  · rw [qFor_flightsQuery_rest p "return_times" (by decide) (by decide) (by decide) (by decide)]
    cases hx : p.return_times <;> simp [restSpec, optPairs, hx]
  · rw [qFor_flightsQuery_rest p "emissions" (by decide) (by decide) (by decide) (by decide)]
    cases hx : p.emissions <;> simp [restSpec, optPairs, hx]
  · rw [qFor_flightsQuery_rest p "layover_duration" (by decide) (by decide) (by decide) (by decide)]
    cases hx : p.layover_duration <;> simp [restSpec, optPairs, hx]
  · rw [qFor_flightsQuery_rest p "exclude_conns" (by decide) (by decide) (by decide) (by decide)]
    cases hx : p.exclude_conns <;> simp [restSpec, optPairs, hx]
  · rw [qFor_flightsQuery_rest p "max_duration" (by decide) (by decide) (by decide) (by decide)]
    cases hx : p.max_duration <;> simp [restSpec, optPairs, hx]
  · rw [qFor_flightsQuery_rest p "departure_token" (by decide) (by decide) (by decide) (by decide)]
    cases hx : p.departure_token <;> simp [restSpec, optPairs, hx]
  · rw [qFor_flightsQuery_rest p "booking_token" (by decide) (by decide) (by decide) (by decide)]
    cases hx : p.booking_token <;> simp [restSpec, optPairs, hx]
  · rw [qFor_flightsQuery_rest p "no_cache" (by decide) (by decide) (by decide) (by decide)]
    cases hx : p.no_cache <;> simp [restSpec, optPairs, hx]
  · rw [qFor_flightsQuery_rest p "zero_trace" (by decide) (by decide) (by decide) (by decide)]
    cases hx : p.zero_trace <;> simp [restSpec, optPairs, hx]

/-- C4, witness: the theorem applied to the minimal valid flight request. -/
theorem flights_query_serialization_witness :
    (flightsHandler pMin flightOracleNet).1
        = some ("https://serpapi.com/search.json?" ++ queryToString (flightsQuery pMin))
    ∧ qFor (flightsQuery pMin) "engine" = [("engine", "google_flights")]
    ∧ qFor (flightsQuery pMin) "api_key" = [("api_key", pMin.api_key)] :=
  ⟨(flights_query_serialization pMin flightOracleNet (by decide) (by decide)).1,
   (flights_query_serialization pMin flightOracleNet (by decide) (by decide)).2.1,
   (flights_query_serialization pMin flightOracleNet (by decide) (by decide)).2.2.1⟩

/-- C10: when the upstream flights call completes 2xx but `response.json()`
throws because the body is not valid JSON, the tool returns an error-flagged
result with the transport-fault message shape (prefix "Failed to fetch
flight data: " and the parse exception's description), not a success result
and not the upstream-error shape. -/
theorem flights_malformed_json (p : FlightParams) (o : String → FlightOutcome)
    (resp : FlightResponse) (emsg : String)
    (hok : flightsIssues p = [])
    (h : o (flightsUrl p) = .success resp)
    (h2 : flightRespOk resp = true)
    (hj : resp.jsonOutcome = .error emsg) :
    (flightsHandler p o).2 =
      { content := [⟨"text", "Failed to fetch flight data: " ++ emsg⟩], isError := true } := by
  simp [flightsHandler, hok, flightsTranslate, h, h2, hj]

/-- C10, witness: the theorem applied to the bad-JSON oracle. -/
theorem flights_malformed_json_witness :
    (flightsHandler pMin flightOracleBadJson).2 =
      { content := [⟨"text", "Failed to fetch flight data: "
          ++ "Unexpected token o in JSON at position 1"⟩], isError := true } :=
  flights_malformed_json pMin flightOracleBadJson
    ⟨200, "OK", "not json", Except.error "Unexpected token o in JSON at position 1"⟩
    "Unexpected token o in JSON at position 1" rfl rfl rfl rfl
